import Mathlib

/-!
Shallow embedding of the `utils` configuration-loading library
(`src/lib.rs` and the derive macro in `derive/src/lib.rs`).

The backing namespace (`std::env::var`) is modelled as a function from keys
to `Except VarError String`; the file system (`std::fs::read_to_string`) as a
function from paths to `Except String String` where the error string stands
for the rendered I/O error (`err.to_string()`).  The `FromEnv` trait becomes a
structure of three functions; the trait's default method bodies are the
`defaultLoad` / `defaultLoadOrFile` functions, and each `impl` either keeps
them or overrides them exactly as the Rust code does.
-/

namespace EnvUtils

/-- Decidable equality for `Except`, so that witnesses can be checked by
`decide`. -/
instance {ε α : Type} [DecidableEq ε] [DecidableEq α] :
    DecidableEq (Except ε α) := fun x y =>
  match x, y with
  | .ok a, .ok b =>
    if h : a = b then .isTrue (by rw [h])
    else .isFalse (fun c => h (Except.ok.inj c))
  | .error a, .error b =>
    if h : a = b then .isTrue (by rw [h])
    else .isFalse (fun c => h (Except.error.inj c))
  | .ok _, .error _ => .isFalse (fun c => Except.noConfusion c)
  | .error _, .ok _ => .isFalse (fun c => Except.noConfusion c)

/-- `EnvErrorType` from `src/lib.rs`.  The `NotUnicode(OsString)` payload is
modelled as the raw byte list of the OS string. -/
inductive EnvErrorType where
  | notPresent : EnvErrorType
  | notUnicode : List Nat → EnvErrorType
  | invalidFormat : EnvErrorType
  | other : String → EnvErrorType
deriving DecidableEq, Repr

/-- `EnvError` from `src/lib.rs`: the failing variable name plus a cause. -/
structure EnvError where
  var : String
  ty : EnvErrorType
deriving DecidableEq, Repr

/-- `std::env::VarError`, the error type of the backing namespace lookup. -/
inductive VarError where
  | notPresent : VarError
  | notUnicode : List Nat → VarError
deriving DecidableEq, Repr

/-- `impl From<std::env::VarError> for EnvErrorType`. -/
def VarError.toEnvErrorType : VarError → EnvErrorType
  | .notPresent => .notPresent
  | .notUnicode os => .notUnicode os

/-- The backing namespace: `std::env::var` as a pure lookup. -/
def Env : Type := String → Except VarError String

/-- The file system: `std::fs::read_to_string` as a pure lookup; an error
carries the rendered I/O error message. -/
def FS : Type := String → Except String String

/-- `EnvError::convert`: attach the identifier to an error after converting
its cause (the Rust version is generic over `Err: Into<EnvErrorType>`; the
conversion is passed explicitly here). -/
def EnvError.convert {ε α : Type} (into : ε → EnvErrorType)
    (res : Except ε α) (ident : String) : Except EnvError α :=
  match res with
  | .ok v => .ok v
  | .error e => .error ⟨ident, into e⟩

/-- The `FromEnv` trait: a parser from a single string plus the two keyed
loading operations.  `load` ignores the file system, but both operations take
`Env` and `FS` so that implementations are interchangeable. -/
structure FromEnvImpl (α : Type) where
  from_env : String → Except EnvErrorType α
  load : Env → FS → String → Except EnvError α
  load_or_file : Env → FS → String → Except EnvError α

/-- The trait's default `load` body:
`EnvError::convert(Self::from_env(&EnvError::convert(std::env::var(ident), ident)?), ident)`. -/
def defaultLoad {α : Type} (fe : String → Except EnvErrorType α)
    (env : Env) (_fs : FS) (ident : String) : Except EnvError α :=
  match EnvError.convert VarError.toEnvErrorType (env ident) ident with
  | .error e => .error e
  | .ok value => EnvError.convert id (fe value) ident

/-- The trait's default `load_or_file` body.  On a present primary key the
value is parsed directly; on an absent primary key the `_FILE`-suffixed key is
looked up (lookup errors attached to the suffixed key), its value is read as a
file path (I/O errors become `Other` attached to the suffixed key), and the
contents are parsed with parse errors attached to the primary key.  Any other
primary lookup error returns immediately. -/
def defaultLoadOrFile {α : Type} (fe : String → Except EnvErrorType α)
    (env : Env) (fs : FS) (ident : String) : Except EnvError α :=
  match env ident with
  | .ok value => EnvError.convert id (fe value) ident
  | .error .notPresent =>
    let name := ident ++ "_FILE"
    match EnvError.convert VarError.toEnvErrorType (env name) name with
    | .error e => .error e
    | .ok path =>
      match fs path with
      | .error ioMsg => .error ⟨name, .other ioMsg⟩
      | .ok contents => EnvError.convert id (fe contents) ident
  | .error e => .error ⟨ident, VarError.toEnvErrorType e⟩

/-- The scalar `from_env` bodies produced by `impl_from_env!`:
`value.parse().map_err(|_| EnvErrorType::InvalidFormat)` — the underlying
parser's error detail is discarded, so a scalar parser is modelled as a
function into `Option`. -/
def scalarFromEnv {α : Type} (parse : String → Option α) :
    String → Except EnvErrorType α :=
  fun value =>
    match parse value with
    | some v => .ok v
    | none => .error .invalidFormat

/-- A scalar leaf implementation: `from_env` from the macro, `load` and
`load_or_file` from the trait defaults. -/
def scalarImpl {α : Type} (parse : String → Option α) : FromEnvImpl α :=
  ⟨scalarFromEnv parse, defaultLoad (scalarFromEnv parse),
    defaultLoadOrFile (scalarFromEnv parse)⟩

/-- Rust's `str::parse::<String>` (via `FromStr for String`) is infallible
and returns the input itself. -/
def parse_String : String → Option String := fun s => some s

/-- ASCII decimal digit test (`char::is_ascii_digit`). -/
def isAsciiDigit (c : Char) : Bool := 48 ≤ c.toNat && c.toNat ≤ 57

/-- Accumulate a decimal number over a digit list; any non-digit rejects the
whole input, as Rust's integer `FromStr` does. -/
def parseDigitsAux (acc : Nat) : List Char → Option Nat
  | [] => some acc
  | c :: cs =>
    if isAsciiDigit c then parseDigitsAux (10 * acc + (c.toNat - 48)) cs
    else none

/-- A non-empty all-digit list parsed as a decimal number. -/
def parseDecimal : List Char → Option Nat
  | [] => none
  | cs => parseDigitsAux 0 cs

/-- Rust's `str::parse::<i32>`: optional sign, decimal digits, `i32` range. -/
def parse_i32 (s : String) : Option Int :=
  match s.data with
  | '-' :: rest =>
    match parseDecimal rest with
    | some n => if n ≤ 2 ^ 31 then some (-(n : Int)) else none
    | none => none
  | '+' :: rest =>
    match parseDecimal rest with
    | some n => if n < 2 ^ 31 then some ((n : Nat) : Int) else none
    | none => none
  | cs =>
    match parseDecimal cs with
    | some n => if n < 2 ^ 31 then some ((n : Nat) : Int) else none
    | none => none

/-- Rust's `str::parse::<u64>`: optional `+` sign, decimal digits, `u64`
range. -/
def parse_u64 (s : String) : Option Nat :=
  match s.data with
  | '+' :: rest =>
    match parseDecimal rest with
    | some n => if n < 2 ^ 64 then some n else none
    | none => none
  | cs =>
    match parseDecimal cs with
    | some n => if n < 2 ^ 64 then some n else none
    | none => none

def stringImpl : FromEnvImpl String := scalarImpl parse_String
def i32Impl : FromEnvImpl Int := scalarImpl parse_i32
def u64Impl : FromEnvImpl Nat := scalarImpl parse_u64

/-- `impl FromEnv for Option<T>`: `from_env` wraps the inner parse in `Some`. -/
def optionFromEnv {α : Type} (fe : String → Except EnvErrorType α) :
    String → Except EnvErrorType (Option α) :=
  fun value =>
    match fe value with
    | .ok v => .ok (some v)
    | .error e => .error e

/-- `Option<T>::load`: an absent key is a successful `None`; a present key
delegates to `Option`'s own `from_env`; any other lookup error is attached to
the key. -/
def optionLoad {α : Type} (inner : FromEnvImpl α)
    (env : Env) (_fs : FS) (ident : String) : Except EnvError (Option α) :=
  match env ident with
  | .ok value => EnvError.convert id (optionFromEnv inner.from_env value) ident
  | .error .notPresent => .ok none
  | .error e => .error ⟨ident, VarError.toEnvErrorType e⟩

/-- `Option<T>::load_or_file`: note that, unlike the scalar default, the
errors of the `_FILE` branch (a non-unicode secondary value and a file I/O
failure) are attached to the *primary* identifier in the source. -/
def optionLoadOrFile {α : Type} (inner : FromEnvImpl α)
    (env : Env) (fs : FS) (ident : String) : Except EnvError (Option α) :=
  match env ident with
  | .ok value => EnvError.convert id (optionFromEnv inner.from_env value) ident
  | .error .notPresent =>
    match env (ident ++ "_FILE") with
    | .ok path =>
      match fs path with
      | .ok contents =>
          EnvError.convert id (optionFromEnv inner.from_env contents) ident
      | .error ioMsg => .error ⟨ident, .other ioMsg⟩
    | .error .notPresent => .ok none
    | .error e => .error ⟨ident, VarError.toEnvErrorType e⟩
  | .error e => .error ⟨ident, VarError.toEnvErrorType e⟩

def optionImpl {α : Type} (inner : FromEnvImpl α) : FromEnvImpl (Option α) :=
  ⟨optionFromEnv inner.from_env, optionLoad inner, optionLoadOrFile inner⟩

/-- `pub struct Masked<T>(pub T);` -/
structure Masked (α : Type) where
  val : α
deriving DecidableEq, Repr

/-- `impl FromEnv for Masked<T>`: `from_env` delegates to the inner type and
wraps the result. -/
def maskedFromEnv {α : Type} (fe : String → Except EnvErrorType α) :
    String → Except EnvErrorType (Masked α) :=
  fun value =>
    match fe value with
    | .ok v => .ok ⟨v⟩
    | .error e => .error e

/-- The `Masked<T>` impl defines only `from_env`; `load` and `load_or_file`
are the trait defaults over `Masked`'s own `from_env` (not the inner type's
possibly overridden methods). -/
def maskedImpl {α : Type} (inner : FromEnvImpl α) : FromEnvImpl (Masked α) :=
  ⟨maskedFromEnv inner.from_env,
    defaultLoad (maskedFromEnv inner.from_env),
    defaultLoadOrFile (maskedFromEnv inner.from_env)⟩

/-- `impl fmt::Debug for Masked<T>`: `write!(f, "***")`. -/
def Masked.debugFmt {α : Type} (_ : Masked α) : String := "***"

/-- `impl fmt::Display for Masked<T>`: `write!(f, "***")`. -/
def Masked.displayFmt {α : Type} (_ : Masked α) : String := "***"

/-- `__convert_ident`: upper-case every character (the spec scopes this to
ASCII identifiers, where `char::to_uppercase` maps one character to one).
Written over the character list so that it reduces in the kernel. -/
def __convert_ident (s : String) : String := ⟨s.data.map Char.toUpper⟩

/-- `__join_idents` from `src/lib.rs` (`ident.is_empty()` is equality with
the empty string; the second argument is the Rust parameter written there as
the appended segment). -/
def __join_idents (ident post : String) : String :=
  if ident = "" then __convert_ident post
  else __convert_ident ident ++ "_" ++ __convert_ident post

/-- The derive macro's key choice for a field: an explicit
`name = "<literal>"` attribute is used verbatim; otherwise
`utils::__join_idents(ident, stringify!(#ident))`. -/
def effectiveKey (explicitName : Option String)
    (enclosing fieldIdent : String) : String :=
  match explicitName with
  | some n => n
  | none => __join_idents enclosing fieldIdent

/-- The derive macro's generated `from_env` body: it fails unconditionally
with a fixed `Other` message, for every composite type and every input. -/
def generatedFromEnv (α : Type) : String → Except EnvErrorType α :=
  fun _ => .error (.other "'from' method not implemented for derive(FromEnv)")

/-- The shape of the generated `load` body: `Ok(S { f1: load1?, f2: load2?,
... })`, i.e. a `?`-chain over the per-field loads in declaration order.
Since the error-propagation structure does not depend on the field value
types, it is captured by sequencing a list of per-field outcomes. -/
def loadFields {V : Type} : List (Except EnvError V) → Except EnvError (List V)
  | [] => .ok []
  | r :: rs =>
    match r with
    | .error e => .error e
    | .ok v =>
      match loadFields rs with
      | .error e => .error e
      | .ok vs => .ok (v :: vs)

/-- The `NestedConfig` struct from the repository's tests:
`{ host: String, address: Option<Masked<String>> }`. -/
structure NestedConfig where
  host : String
  address : Option (Masked String)
deriving DecidableEq, Repr

/-- The `derive(FromEnv)`-generated `load` for `NestedConfig`: each field is
loaded with the key produced by the macro's name choice, in declaration
order, aborting at the first failure. -/
def NestedConfig.loadImpl (env : Env) (fs : FS) (ident : String) :
    Except EnvError NestedConfig :=
  match stringImpl.load env fs (effectiveKey none ident "host") with
  | .error e => .error e
  | .ok host =>
    match (optionImpl (maskedImpl stringImpl)).load env fs
        (effectiveKey none ident "address") with
    | .error e => .error e
    | .ok address => .ok ⟨host, address⟩

/-- The full generated impl for `NestedConfig`: `from_env` is the generated
always-failing body; `load` is generated; `load_or_file` stays the trait
default (the derive does not override it). -/
def NestedConfigImpl : FromEnvImpl NestedConfig :=
  ⟨generatedFromEnv NestedConfig, NestedConfig.loadImpl,
    defaultLoadOrFile (generatedFromEnv NestedConfig)⟩

/-- The `TestConfig` struct from the repository's tests:
`{ id: i32, #[utils(var_or_file, name = "TEST_NAME")] name: String,
guest_id: Option<u64>, nested: NestedConfig }`. -/
structure TestConfig where
  id : Int
  name : String
  guest_id : Option Nat
  nested : NestedConfig
deriving DecidableEq, Repr

/-- The `derive(FromEnv)`-generated `load` for `TestConfig`: the `name` field
carries `var_or_file` (so `load_or_file` is invoked) and an explicit
`name = "TEST_NAME"` attribute (used verbatim); the other fields use the
derived joined keys and plain `load`. -/
def TestConfig.loadImpl (env : Env) (fs : FS) (ident : String) :
    Except EnvError TestConfig :=
  match i32Impl.load env fs (effectiveKey none ident "id") with
  | .error e => .error e
  | .ok id =>
    match stringImpl.load_or_file env fs
        (effectiveKey (some "TEST_NAME") ident "name") with
    | .error e => .error e
    | .ok name =>
      match (optionImpl u64Impl).load env fs
          (effectiveKey none ident "guest_id") with
      | .error e => .error e
      | .ok guest_id =>
        match NestedConfigImpl.load env fs (effectiveKey none ident "nested") with
        | .error e => .error e
        | .ok nested => .ok ⟨id, name, guest_id, nested⟩

/-- The full generated impl for `TestConfig`. -/
def TestConfigImpl : FromEnvImpl TestConfig :=
  ⟨generatedFromEnv TestConfig, TestConfig.loadImpl,
    defaultLoadOrFile (generatedFromEnv TestConfig)⟩

/-! ### Concrete fixtures for witnesses and counterexamples -/

/-- A namespace with no variables set. -/
def envEmpty : Env := fun _ => .error .notPresent

/-- An empty file system: every read fails. -/
def fsEmpty : FS := fun _ => .error "No such file or directory (os error 2)"

/-- A namespace where the primary key `K` is absent and the secondary key
`K_FILE` is present but not unicode. -/
def envSecondaryNotUnicode : Env := fun key =>
  if key = "K_FILE" then .error (.notUnicode [200]) else .error .notPresent

/-- A namespace where `K` is absent and `K_FILE` names a path. -/
def envSecondaryFile : Env := fun key =>
  if key = "K_FILE" then .ok "secret.txt" else .error .notPresent

/-- A file system holding `secret.txt` with contents `hunter2`. -/
def fsSecret : FS := fun path =>
  if path = "secret.txt" then .ok "hunter2"
  else .error "No such file or directory (os error 2)"

/-- The namespace of the first end-to-end test:
`{ID=5, TEST_NAME=john doe, GUEST_ID=4, NESTED_HOST=yoyo}`. -/
def envTestRegular : Env := fun key =>
  if key = "ID" then .ok "5"
  else if key = "TEST_NAME" then .ok "john doe"
  else if key = "GUEST_ID" then .ok "4"
  else if key = "NESTED_HOST" then .ok "yoyo"
  else .error .notPresent

/-- A namespace in which the fields `id` and `guest_id` would both fail
independently: `ID=x` and `GUEST_ID=y` are both unparseable as integers. -/
def envBothBad : Env := fun key =>
  if key = "ID" then .ok "x"
  else if key = "TEST_NAME" then .ok "n"
  else if key = "GUEST_ID" then .ok "y"
  else if key = "NESTED_HOST" then .ok "h"
  else .error .notPresent

/-- A namespace in which only the innermost nested key `NESTED_HOST` is
missing. -/
def envNestedHostMissing : Env := fun key =>
  if key = "ID" then .ok "5"
  else if key = "TEST_NAME" then .ok "n"
  else if key = "GUEST_ID" then .ok "4"
  else .error .notPresent

/-! ### Characterization lemmas for the default and overridden methods -/

theorem dl_ok {α : Type} (fe : String → Except EnvErrorType α) (env : Env)
    (fs : FS) (k v : String) (h : env k = .ok v) :
    defaultLoad fe env fs k = EnvError.convert id (fe v) k := by
  unfold defaultLoad
  rw [h]
  rfl

theorem dl_err {α : Type} (fe : String → Except EnvErrorType α) (env : Env)
    (fs : FS) (k : String) (e : VarError) (h : env k = .error e) :
    defaultLoad fe env fs k = .error ⟨k, e.toEnvErrorType⟩ := by
  unfold defaultLoad
  rw [h]
  rfl

theorem dlof_ok {α : Type} (fe : String → Except EnvErrorType α) (env : Env)
    (fs : FS) (k v : String) (h : env k = .ok v) :
    defaultLoadOrFile fe env fs k = EnvError.convert id (fe v) k := by
  unfold defaultLoadOrFile
  rw [h]

theorem dlof_primary_notUnicode {α : Type} (fe : String → Except EnvErrorType α)
    (env : Env) (fs : FS) (k : String) (os : List Nat)
    (h : env k = .error (.notUnicode os)) :
    defaultLoadOrFile fe env fs k = .error ⟨k, .notUnicode os⟩ := by
  unfold defaultLoadOrFile
  rw [h]
  rfl

theorem dlof_absent_absent {α : Type} (fe : String → Except EnvErrorType α)
    (env : Env) (fs : FS) (k : String)
    (h1 : env k = .error .notPresent)
    (h2 : env (k ++ "_FILE") = .error .notPresent) :
    defaultLoadOrFile fe env fs k = .error ⟨k ++ "_FILE", .notPresent⟩ := by
  unfold defaultLoadOrFile
  rw [h1]
  simp only [EnvError.convert, h2]
  rfl

theorem dlof_secondary_notUnicode {α : Type} (fe : String → Except EnvErrorType α)
    (env : Env) (fs : FS) (k : String) (os : List Nat)
    (h1 : env k = .error .notPresent)
    (h2 : env (k ++ "_FILE") = .error (.notUnicode os)) :
    defaultLoadOrFile fe env fs k = .error ⟨k ++ "_FILE", .notUnicode os⟩ := by
  unfold defaultLoadOrFile
  rw [h1]
  simp only [EnvError.convert, h2]
  rfl

theorem dlof_file_ioerr {α : Type} (fe : String → Except EnvErrorType α)
    (env : Env) (fs : FS) (k path msg : String)
    (h1 : env k = .error .notPresent)
    (h2 : env (k ++ "_FILE") = .ok path)
    (h3 : fs path = .error msg) :
    defaultLoadOrFile fe env fs k = .error ⟨k ++ "_FILE", .other msg⟩ := by
  unfold defaultLoadOrFile
  rw [h1]
  simp only [EnvError.convert, h2, h3]

theorem dlof_file_ok {α : Type} (fe : String → Except EnvErrorType α)
    (env : Env) (fs : FS) (k path contents : String)
    (h1 : env k = .error .notPresent)
    (h2 : env (k ++ "_FILE") = .ok path)
    (h3 : fs path = .ok contents) :
    defaultLoadOrFile fe env fs k = EnvError.convert id (fe contents) k := by
  unfold defaultLoadOrFile
  rw [h1]
  simp only [EnvError.convert, h2, h3]

theorem ol_ok {α : Type} (inner : FromEnvImpl α) (env : Env) (fs : FS)
    (k v : String) (h : env k = .ok v) :
    optionLoad inner env fs k =
      EnvError.convert id (optionFromEnv inner.from_env v) k := by
  unfold optionLoad
  rw [h]

theorem ol_absent {α : Type} (inner : FromEnvImpl α) (env : Env) (fs : FS)
    (k : String) (h : env k = .error .notPresent) :
    optionLoad inner env fs k = .ok none := by
  unfold optionLoad
  rw [h]

theorem ol_notUnicode {α : Type} (inner : FromEnvImpl α) (env : Env) (fs : FS)
    (k : String) (os : List Nat) (h : env k = .error (.notUnicode os)) :
    optionLoad inner env fs k = .error ⟨k, .notUnicode os⟩ := by
  unfold optionLoad
  rw [h]
  rfl

theorem olof_ok {α : Type} (inner : FromEnvImpl α) (env : Env) (fs : FS)
    (k v : String) (h : env k = .ok v) :
    optionLoadOrFile inner env fs k =
      EnvError.convert id (optionFromEnv inner.from_env v) k := by
  unfold optionLoadOrFile
  rw [h]

theorem olof_primary_notUnicode {α : Type} (inner : FromEnvImpl α) (env : Env)
    (fs : FS) (k : String) (os : List Nat)
    (h : env k = .error (.notUnicode os)) :
    optionLoadOrFile inner env fs k = .error ⟨k, .notUnicode os⟩ := by
  unfold optionLoadOrFile
  rw [h]
  rfl

theorem olof_absent_absent {α : Type} (inner : FromEnvImpl α) (env : Env)
    (fs : FS) (k : String)
    (h1 : env k = .error .notPresent)
    (h2 : env (k ++ "_FILE") = .error .notPresent) :
    optionLoadOrFile inner env fs k = .ok none := by
  unfold optionLoadOrFile
  rw [h1, h2]

theorem olof_secondary_notUnicode {α : Type} (inner : FromEnvImpl α) (env : Env)
    (fs : FS) (k : String) (os : List Nat)
    (h1 : env k = .error .notPresent)
    (h2 : env (k ++ "_FILE") = .error (.notUnicode os)) :
    optionLoadOrFile inner env fs k = .error ⟨k, .notUnicode os⟩ := by
  unfold optionLoadOrFile
  rw [h1, h2]
  rfl

theorem olof_file_ioerr {α : Type} (inner : FromEnvImpl α) (env : Env)
    (fs : FS) (k path msg : String)
    (h1 : env k = .error .notPresent)
    (h2 : env (k ++ "_FILE") = .ok path)
    (h3 : fs path = .error msg) :
    optionLoadOrFile inner env fs k = .error ⟨k, .other msg⟩ := by
  unfold optionLoadOrFile
  rw [h1, h2]
  simp only [h3]

theorem olof_file_ok {α : Type} (inner : FromEnvImpl α) (env : Env)
    (fs : FS) (k path contents : String)
    (h1 : env k = .error .notPresent)
    (h2 : env (k ++ "_FILE") = .ok path)
    (h3 : fs path = .ok contents) :
    optionLoadOrFile inner env fs k =
      EnvError.convert id (optionFromEnv inner.from_env contents) k := by
  unfold optionLoadOrFile
  rw [h1, h2]
  simp only [h3]

theorem optionFromEnv_ne_ok_none {α : Type}
    (fe : String → Except EnvErrorType α) (v : String) :
    optionFromEnv fe v ≠ .ok none := by
  unfold optionFromEnv
  cases fe v <;> simp

theorem stringImpl_load_def :
    stringImpl.load = defaultLoad (scalarFromEnv parse_String) := rfl

/-! ### Claim theorems -/

/-- C3: for every scalar type and key `KEY`, `load_or_file(KEY)` parses the
primary value when `KEY` is present (never consulting the file system), lets
any non-absence primary error propagate immediately, fails with `Absent`
attached to `KEY_FILE` when both keys are absent, turns a file I/O failure
into a generic `Other` cause, and parses file contents with any parse failure
attached to the primary key `KEY`. -/
theorem scalar_load_or_file_spec {α : Type} (parse : String → Option α)
    (env : Env) (fs : FS) (k : String) :
    (∀ v, env k = .ok v →
      (scalarImpl parse).load_or_file env fs k =
        EnvError.convert id (scalarFromEnv parse v) k)
  ∧ (∀ os, env k = .error (.notUnicode os) →
      (scalarImpl parse).load_or_file env fs k = .error ⟨k, .notUnicode os⟩)
  ∧ (env k = .error .notPresent → env (k ++ "_FILE") = .error .notPresent →
      (scalarImpl parse).load_or_file env fs k =
        .error ⟨k ++ "_FILE", .notPresent⟩)
  ∧ (∀ path msg, env k = .error .notPresent → env (k ++ "_FILE") = .ok path →
      fs path = .error msg →
      (scalarImpl parse).load_or_file env fs k =
        .error ⟨k ++ "_FILE", .other msg⟩)
  ∧ (∀ path contents, env k = .error .notPresent →
      env (k ++ "_FILE") = .ok path → fs path = .ok contents →
      (scalarImpl parse).load_or_file env fs k =
        EnvError.convert id (scalarFromEnv parse contents) k)
  ∧ (∀ path contents, env k = .error .notPresent →
      env (k ++ "_FILE") = .ok path → fs path = .ok contents →
      parse contents = none →
      (scalarImpl parse).load_or_file env fs k = .error ⟨k, .invalidFormat⟩) := by
  refine ⟨?_, ?_, ?_, ?_, ?_, ?_⟩
  · intro v h
    exact dlof_ok _ env fs k v h
  · intro os h
    exact dlof_primary_notUnicode _ env fs k os h
  · intro h1 h2
    exact dlof_absent_absent _ env fs k h1 h2
  · intro path msg h1 h2 h3
    exact dlof_file_ioerr _ env fs k path msg h1 h2 h3
  · intro path contents h1 h2 h3
    exact dlof_file_ok _ env fs k path contents h1 h2 h3
  · intro path contents h1 h2 h3 h4
    have := dlof_file_ok (scalarFromEnv parse) env fs k path contents h1 h2 h3
    rw [show (scalarImpl parse).load_or_file =
      defaultLoadOrFile (scalarFromEnv parse) from rfl, this]
    simp [scalarFromEnv, h4, EnvError.convert]

/-- Witness for C3 at concrete inputs: absence of both keys reports
`K_FILE`=absent; a file-provided value is parsed; an unparseable
file-provided value reports the primary key. -/
theorem scalar_load_or_file_spec_witness :
    (scalarImpl parse_String).load_or_file envEmpty fsEmpty "K" =
      .error ⟨"K" ++ "_FILE", .notPresent⟩
  ∧ (scalarImpl parse_String).load_or_file envSecondaryFile fsSecret "K" =
      EnvError.convert id (scalarFromEnv parse_String "hunter2") "K"
  ∧ (scalarImpl parse_i32).load_or_file envSecondaryFile fsSecret "K" =
      .error ⟨"K", .invalidFormat⟩ :=
  ⟨(scalar_load_or_file_spec parse_String envEmpty fsEmpty "K").2.2.1
      (by decide) (by decide),
   (scalar_load_or_file_spec parse_String envSecondaryFile fsSecret "K").2.2.2.2.1
      "secret.txt" "hunter2" (by decide) (by decide) (by decide),
   (scalar_load_or_file_spec parse_i32 envSecondaryFile fsSecret "K").2.2.2.2.2
      "secret.txt" "hunter2" (by decide) (by decide) (by decide) (by decide)⟩

/-- C4: the effective key of a field is the explicit `name` attribute
verbatim when present; otherwise the upper-cased enclosing key joined to the
upper-cased field identifier with an underscore, or just the upper-cased
field identifier when the enclosing key is empty; root-level `id` derives
`ID` and `host` nested under `nested` derives `NESTED_HOST`. -/
theorem key_derivation_spec (n enc f : String) :
    effectiveKey (some n) enc f = n
  ∧ (enc ≠ "" → effectiveKey none enc f =
      __convert_ident enc ++ "_" ++ __convert_ident f)
  ∧ effectiveKey none "" f = __convert_ident f
  ∧ effectiveKey none "" "id" = "ID"
  ∧ effectiveKey none (effectiveKey none "" "nested") "host" = "NESTED_HOST" := by
  refine ⟨rfl, ?_, ?_, by decide, by decide⟩
  · intro h
    simp [effectiveKey, __join_idents, h]
  · simp [effectiveKey, __join_idents]

/-- Witness for C4: the explicit attribute ignores nesting, and a non-empty
enclosing key is joined with an underscore. -/
theorem key_derivation_spec_witness :
    effectiveKey (some "TEST_NAME") "NESTED" "name" = "TEST_NAME"
  ∧ effectiveKey none "NESTED" "host" =
      __convert_ident "NESTED" ++ "_" ++ __convert_ident "host" :=
  ⟨(key_derivation_spec "TEST_NAME" "NESTED" "name").1,
   (key_derivation_spec "TEST_NAME" "NESTED" "host").2.1 (by decide)⟩

/-- C5: for every scalar leaf type, `load(KEY)` returns the parser's result
on a present value, fails with `Absent` and key `KEY` on an absent key, fails
with the not-unicode cause and key `KEY` on a non-textual value, and turns
any malformed value into the uniform `InvalidFormat` cause with key `KEY`. -/
theorem scalar_load_spec {α : Type} (parse : String → Option α)
    (env : Env) (fs : FS) (k : String) :
    (∀ v, env k = .ok v →
      (scalarImpl parse).load env fs k =
        EnvError.convert id (scalarFromEnv parse v) k)
  ∧ (∀ v a, env k = .ok v → parse v = some a →
      (scalarImpl parse).load env fs k = .ok a)
  ∧ (∀ v, env k = .ok v → parse v = none →
      (scalarImpl parse).load env fs k = .error ⟨k, .invalidFormat⟩)
  ∧ (env k = .error .notPresent →
      (scalarImpl parse).load env fs k = .error ⟨k, .notPresent⟩)
  ∧ (∀ os, env k = .error (.notUnicode os) →
      (scalarImpl parse).load env fs k = .error ⟨k, .notUnicode os⟩) := by
  refine ⟨?_, ?_, ?_, ?_, ?_⟩
  · intro v h
    exact dl_ok _ env fs k v h
  · intro v a h hp
    rw [show (scalarImpl parse).load = defaultLoad (scalarFromEnv parse) from rfl,
      dl_ok _ env fs k v h]
    simp [scalarFromEnv, hp, EnvError.convert]
  · intro v h hp
    rw [show (scalarImpl parse).load = defaultLoad (scalarFromEnv parse) from rfl,
      dl_ok _ env fs k v h]
    simp [scalarFromEnv, hp, EnvError.convert]
  · intro h
    exact dl_err _ env fs k _ h
  · intro os h
    exact dl_err _ env fs k _ h

/-- Witness for C5: a present parseable value loads, an absent key reports
`Absent`, a malformed value reports `InvalidFormat`, all with the key `ID`. -/
theorem scalar_load_spec_witness :
    (scalarImpl parse_i32).load envTestRegular fsEmpty "ID" = .ok 5
  ∧ (scalarImpl parse_i32).load envEmpty fsEmpty "ID" =
      .error ⟨"ID", .notPresent⟩
  ∧ (scalarImpl parse_i32).load envBothBad fsEmpty "ID" =
      .error ⟨"ID", .invalidFormat⟩ :=
  ⟨(scalar_load_spec parse_i32 envTestRegular fsEmpty "ID").2.1
      "5" 5 (by decide) (by decide),
   (scalar_load_spec parse_i32 envEmpty fsEmpty "ID").2.2.2.1 (by decide),
   (scalar_load_spec parse_i32 envBothBad fsEmpty "ID").2.2.1
      "x" (by decide) (by decide)⟩

/-- C7: the display and debug renderings of a `Masked` value are the fixed
redaction marker `"***"`, independent of the held value. -/
theorem masked_rendering_spec {α : Type} (a b : α) :
    Masked.displayFmt ⟨a⟩ = "***"
  ∧ Masked.debugFmt ⟨a⟩ = "***"
  ∧ Masked.displayFmt ⟨a⟩ = Masked.displayFmt (⟨b⟩ : Masked α)
  ∧ Masked.debugFmt ⟨a⟩ = Masked.debugFmt (⟨b⟩ : Masked α) :=
  ⟨rfl, rfl, rfl, rfl⟩

/-- Witness for C7 at a concrete held value. -/
theorem masked_rendering_spec_witness :
    Masked.displayFmt (⟨"hunter2"⟩ : Masked String) = "***" :=
  (masked_rendering_spec "hunter2" "other").1

/-- C8: the generated direct-parse capability of a composite type fails
unconditionally, for every input string. -/
theorem composite_from_env_spec (s : String) :
    NestedConfigImpl.from_env s =
      .error (.other "'from' method not implemented for derive(FromEnv)")
  ∧ TestConfigImpl.from_env s =
      .error (.other "'from' method not implemented for derive(FromEnv)")
  ∧ ∀ (α : Type), ¬ ∃ v, generatedFromEnv α s = .ok v := by
  refine ⟨rfl, rfl, ?_⟩
  intro α h
  obtain ⟨v, hv⟩ := h
  exact Except.noConfusion hv

/-- Witness for C8 at a concrete input string. -/
theorem composite_from_env_spec_witness :
    NestedConfigImpl.from_env "host=h" =
      .error (.other "'from' method not implemented for derive(FromEnv)") :=
  (composite_from_env_spec "host=h").1

/-- C10: the text parser accepts every input string unchanged, so a
text-typed field's `load` can only fail with the absent or not-unicode
causes; `InvalidFormat` is unreachable for text fields. -/
theorem string_parse_total_spec (s : String) (env : Env) (fs : FS) (k : String) :
    stringImpl.from_env s = .ok s
  ∧ (∀ e, stringImpl.load env fs k = .error e →
      e.ty = .notPresent ∨ ∃ os, e.ty = .notUnicode os) := by
  constructor
  · rfl
  · intro e h
    cases hv : env k with
    | ok v =>
      rw [stringImpl_load_def, dl_ok _ env fs k v hv] at h
      simp [scalarFromEnv, parse_String, EnvError.convert] at h
    | error ve =>
      rw [stringImpl_load_def, dl_err _ env fs k ve hv] at h
      have h2 := Except.error.inj h
      cases ve with
      | notPresent =>
        left
        rw [← h2]
        rfl
      | notUnicode os =>
        right
        exact ⟨os, by rw [← h2]; rfl⟩

/-- Witness for C10: an absent key is the only failure on an empty
namespace, and its cause is `Absent`. -/
theorem string_parse_total_spec_witness :
    EnvError.ty ⟨"K", .notPresent⟩ = .notPresent
  ∨ ∃ os, EnvError.ty ⟨"K", .notPresent⟩ = .notUnicode os :=
  (string_parse_total_spec "v" envEmpty fsEmpty "K").2
    ⟨"K", .notPresent⟩ (by decide)

/-- C6: the optional wrapper's `load` succeeds with `none` on an absent key,
wraps the inner parse on a present key (an unparseable value fails with the
inner cause, never a silent empty), and propagates non-absence lookup errors;
its `load_or_file` succeeds with `none` exactly when both the primary and the
`_FILE`-suffixed key are absent, follows the parse-or-read-then-parse path
when either is present, and propagates any non-absence error at any probe
step immediately. -/
theorem option_load_spec {α : Type} (inner : FromEnvImpl α)
    (env : Env) (fs : FS) (k : String) :
    (env k = .error .notPresent → (optionImpl inner).load env fs k = .ok none)
  ∧ (∀ v a, env k = .ok v → inner.from_env v = .ok a →
      (optionImpl inner).load env fs k = .ok (some a))
  ∧ (∀ v t, env k = .ok v → inner.from_env v = .error t →
      (optionImpl inner).load env fs k = .error ⟨k, t⟩)
  ∧ (∀ os, env k = .error (.notUnicode os) →
      (optionImpl inner).load env fs k = .error ⟨k, .notUnicode os⟩)
  ∧ ((optionImpl inner).load_or_file env fs k = .ok none ↔
      env k = .error .notPresent ∧ env (k ++ "_FILE") = .error .notPresent)
  ∧ (∀ v, env k = .ok v →
      (optionImpl inner).load_or_file env fs k =
        EnvError.convert id (optionFromEnv inner.from_env v) k)
  ∧ (∀ path contents, env k = .error .notPresent →
      env (k ++ "_FILE") = .ok path → fs path = .ok contents →
      (optionImpl inner).load_or_file env fs k =
        EnvError.convert id (optionFromEnv inner.from_env contents) k)
  ∧ (∀ path msg, env k = .error .notPresent →
      env (k ++ "_FILE") = .ok path → fs path = .error msg →
      (optionImpl inner).load_or_file env fs k = .error ⟨k, .other msg⟩)
  ∧ (∀ os, env k = .error (.notUnicode os) →
      (optionImpl inner).load_or_file env fs k = .error ⟨k, .notUnicode os⟩)
  ∧ (∀ os, env k = .error .notPresent →
      env (k ++ "_FILE") = .error (.notUnicode os) →
      (optionImpl inner).load_or_file env fs k = .error ⟨k, .notUnicode os⟩) := by
  refine ⟨?_, ?_, ?_, ?_, ⟨?_, ?_⟩, ?_, ?_, ?_, ?_, ?_⟩
  · intro h
    exact ol_absent inner env fs k h
  · intro v a h hfe
    rw [show (optionImpl inner).load = optionLoad inner from rfl,
      ol_ok inner env fs k v h]
    simp [optionFromEnv, hfe, EnvError.convert]
  · intro v t h hfe
    rw [show (optionImpl inner).load = optionLoad inner from rfl,
      ol_ok inner env fs k v h]
    simp [optionFromEnv, hfe, EnvError.convert]
  · intro os h
    exact ol_notUnicode inner env fs k os h
  · intro h
    cases hv : env k with
    | ok v =>
      rw [show (optionImpl inner).load_or_file = optionLoadOrFile inner from rfl,
        olof_ok inner env fs k v hv] at h
      cases hfe : inner.from_env v <;>
        simp [optionFromEnv, hfe, EnvError.convert] at h
    | error ve =>
      cases ve with
      | notPresent =>
        cases hs : env (k ++ "_FILE") with
        | ok path =>
          cases hf : fs path with
          | ok contents =>
            rw [show (optionImpl inner).load_or_file = optionLoadOrFile inner from rfl,
              olof_file_ok inner env fs k path contents hv hs hf] at h
            cases hfe : inner.from_env contents <;>
              simp [optionFromEnv, hfe, EnvError.convert] at h
          | error msg =>
            rw [show (optionImpl inner).load_or_file = optionLoadOrFile inner from rfl,
              olof_file_ioerr inner env fs k path msg hv hs hf] at h
            exact Except.noConfusion h
        | error ve2 =>
          cases ve2 with
          | notPresent => exact ⟨rfl, rfl⟩
          | notUnicode os =>
            rw [show (optionImpl inner).load_or_file = optionLoadOrFile inner from rfl,
              olof_secondary_notUnicode inner env fs k os hv hs] at h
            exact Except.noConfusion h
      | notUnicode os =>
        rw [show (optionImpl inner).load_or_file = optionLoadOrFile inner from rfl,
          olof_primary_notUnicode inner env fs k os hv] at h
        exact Except.noConfusion h
  · intro h
    exact olof_absent_absent inner env fs k h.1 h.2
  · intro v h
    exact olof_ok inner env fs k v h
  · intro path contents h1 h2 h3
    exact olof_file_ok inner env fs k path contents h1 h2 h3
  · intro path msg h1 h2 h3
    exact olof_file_ioerr inner env fs k path msg h1 h2 h3
  · intro os h
    exact olof_primary_notUnicode inner env fs k os h
  · intro os h1 h2
    exact olof_secondary_notUnicode inner env fs k os h1 h2

/-- Witness for C6 at concrete inputs: double absence yields `none`, a
present unparseable value yields the inner failure, and a file-provided
value is parsed. -/
theorem option_load_spec_witness :
    (optionImpl stringImpl).load envEmpty fsEmpty "K" = .ok none
  ∧ ((optionImpl stringImpl).load_or_file envEmpty fsEmpty "K" = .ok none ↔
      envEmpty "K" = .error .notPresent
      ∧ envEmpty ("K" ++ "_FILE") = .error .notPresent)
  ∧ (optionImpl u64Impl).load envBothBad fsEmpty "GUEST_ID" =
      .error ⟨"GUEST_ID", .invalidFormat⟩
  ∧ (optionImpl stringImpl).load_or_file envSecondaryFile fsSecret "K" =
      EnvError.convert id (optionFromEnv stringImpl.from_env "hunter2") "K" :=
  ⟨(option_load_spec stringImpl envEmpty fsEmpty "K").1 (by decide),
   (option_load_spec stringImpl envEmpty fsEmpty "K").2.2.2.2.1,
   (option_load_spec u64Impl envBothBad fsEmpty "GUEST_ID").2.2.1
      "y" .invalidFormat (by decide) (by decide),
   (option_load_spec stringImpl envSecondaryFile fsSecret "K").2.2.2.2.2.2.1
      "secret.txt" "hunter2" (by decide) (by decide) (by decide)⟩

theorem defaultLoad_masked {α : Type} (fe : String → Except EnvErrorType α)
    (env : Env) (fs : FS) (k : String) :
    defaultLoad (maskedFromEnv fe) env fs k =
      (defaultLoad fe env fs k).map Masked.mk := by
  unfold defaultLoad
  cases hv : env k with
  | ok v =>
    simp only [EnvError.convert, maskedFromEnv]
    cases hfe : fe v <;> simp [Except.map, EnvError.convert]
  | error e =>
    simp [EnvError.convert, Except.map]

theorem defaultLoadOrFile_masked {α : Type} (fe : String → Except EnvErrorType α)
    (env : Env) (fs : FS) (k : String) :
    defaultLoadOrFile (maskedFromEnv fe) env fs k =
      (defaultLoadOrFile fe env fs k).map Masked.mk := by
  cases hv : env k with
  | ok v =>
    rw [dlof_ok (maskedFromEnv fe) env fs k v hv, dlof_ok fe env fs k v hv]
    unfold maskedFromEnv
    cases hfe : fe v <;> simp [EnvError.convert, Except.map]
  | error e =>
    cases e with
    | notPresent =>
      cases hs : env (k ++ "_FILE") with
      | ok path =>
        cases hf : fs path with
        | ok contents =>
          rw [dlof_file_ok (maskedFromEnv fe) env fs k path contents hv hs hf,
            dlof_file_ok fe env fs k path contents hv hs hf]
          unfold maskedFromEnv
          cases hfe : fe contents <;> simp [EnvError.convert, Except.map]
        | error msg =>
          rw [dlof_file_ioerr (maskedFromEnv fe) env fs k path msg hv hs hf,
            dlof_file_ioerr fe env fs k path msg hv hs hf]
          simp [Except.map]
      | error e2 =>
        cases e2 with
        | notPresent =>
          rw [dlof_absent_absent (maskedFromEnv fe) env fs k hv hs,
            dlof_absent_absent fe env fs k hv hs]
          simp [Except.map]
        | notUnicode os =>
          rw [dlof_secondary_notUnicode (maskedFromEnv fe) env fs k os hv hs,
            dlof_secondary_notUnicode fe env fs k os hv hs]
          simp [Except.map]
    | notUnicode os =>
      rw [dlof_primary_notUnicode (maskedFromEnv fe) env fs k os hv,
        dlof_primary_notUnicode fe env fs k os hv]
      simp [Except.map]

/-- Counterexample to C2: for the wrapper inner type `Option<String>`,
`Masked<Option<String>>::load` on an absent key fails with `Absent` while
`Option<String>::load` succeeds with an empty result, so delegation of the
loading strategies is not verbatim. -/
theorem masked_delegation_counterexample :
    (maskedImpl (optionImpl stringImpl)).load envEmpty fsEmpty "K" =
      .error ⟨"K", .notPresent⟩
  ∧ (optionImpl stringImpl).load envEmpty fsEmpty "K" = .ok none :=
  ⟨by decide, by decide⟩

/-- C2 (amended): `Masked<T>` delegates `parse` (`from_env`) verbatim to the
inner type; its `load` and `load_or_file` are the trait defaults over that
delegated parser, so they agree with the inner type's operations (same
success and failure outcomes, value wrapped) whenever the inner type itself
uses the default strategies — as every scalar does — but not for inner types
that override them: `Masked<Option<U>>::load` fails with `Absent` on an
absent key where `Option<U>::load` succeeds with an empty result. -/
theorem masked_delegation_spec {α : Type} (inner : FromEnvImpl α)
    (env : Env) (fs : FS) (k : String) :
    (∀ s, (maskedImpl inner).from_env s = (inner.from_env s).map Masked.mk)
  ∧ (inner.load = defaultLoad inner.from_env →
      (maskedImpl inner).load env fs k = (inner.load env fs k).map Masked.mk)
  ∧ (inner.load_or_file = defaultLoadOrFile inner.from_env →
      (maskedImpl inner).load_or_file env fs k =
        (inner.load_or_file env fs k).map Masked.mk)
  ∧ (env k = .error .notPresent →
      (maskedImpl (optionImpl inner)).load env fs k = .error ⟨k, .notPresent⟩
      ∧ (optionImpl inner).load env fs k = .ok none) := by
  refine ⟨?_, ?_, ?_, ?_⟩
  · intro s
    show maskedFromEnv inner.from_env s = (inner.from_env s).map Masked.mk
    unfold maskedFromEnv
    cases inner.from_env s <;> simp [Except.map]
  · intro h
    rw [h]
    exact defaultLoad_masked inner.from_env env fs k
  · intro h
    rw [h]
    exact defaultLoadOrFile_masked inner.from_env env fs k
  · intro h
    exact ⟨dl_err _ env fs k _ h, ol_absent inner env fs k h⟩

/-- Witness for C2 (amended) at concrete inputs: a masked scalar loads like
the scalar with the value wrapped, and a masked optional diverges from the
optional on an absent key. -/
theorem masked_delegation_spec_witness :
    (maskedImpl stringImpl).load envTestRegular fsEmpty "TEST_NAME" =
      (stringImpl.load envTestRegular fsEmpty "TEST_NAME").map Masked.mk
  ∧ (maskedImpl (optionImpl stringImpl)).load envEmpty fsEmpty "K" =
      .error ⟨"K", .notPresent⟩
  ∧ (optionImpl stringImpl).load envEmpty fsEmpty "K" = .ok none :=
  ⟨(masked_delegation_spec stringImpl envTestRegular fsEmpty "TEST_NAME").2.1 rfl,
   ((masked_delegation_spec stringImpl envEmpty fsEmpty "K").2.2.2 (by decide)).1,
   ((masked_delegation_spec stringImpl envEmpty fsEmpty "K").2.2.2 (by decide)).2⟩

/-- Counterexample to C1: in `Option`'s `load_or_file`, with the primary key
`K` absent and the secondary key `K_FILE` present but not unicode, the
returned error carries the primary key `K`, not the secondary key
`K_FILE`. -/
theorem error_key_counterexample :
    (optionImpl stringImpl).load_or_file envSecondaryNotUnicode fsEmpty "K" =
      .error ⟨"K", .notUnicode [200]⟩
  ∧ "K" ≠ "K" ++ "_FILE" :=
  ⟨by decide, by decide⟩

/-- C1 (amended): errors carry the key actually being resolved, with one
family of exceptions.  In the scalar default `load_or_file`, every failure of
the `_FILE` branch (secondary key absent, secondary key not unicode, I/O
failure) carries the secondary key, while a parse failure of the file
contents carries the primary key; in the optional wrapper's `load_or_file`, a
non-unicode secondary key and a file I/O failure carry the *primary* key (and
an absent secondary key yields a successful empty rather than an error); a
composite load propagates the inner field's error unchanged, so a nested
failure keeps the innermost key. -/
theorem error_key_spec {α β : Type} (parse : String → Option α)
    (inner : FromEnvImpl β) (env : Env) (fs : FS) (k p : String) :
    (env k = .error .notPresent → env (k ++ "_FILE") = .error .notPresent →
      (scalarImpl parse).load_or_file env fs k =
        .error ⟨k ++ "_FILE", .notPresent⟩)
  ∧ (∀ os, env k = .error .notPresent →
      env (k ++ "_FILE") = .error (.notUnicode os) →
      (scalarImpl parse).load_or_file env fs k =
        .error ⟨k ++ "_FILE", .notUnicode os⟩)
  ∧ (∀ path msg, env k = .error .notPresent → env (k ++ "_FILE") = .ok path →
      fs path = .error msg →
      (scalarImpl parse).load_or_file env fs k =
        .error ⟨k ++ "_FILE", .other msg⟩)
  ∧ (∀ path contents, env k = .error .notPresent →
      env (k ++ "_FILE") = .ok path → fs path = .ok contents →
      parse contents = none →
      (scalarImpl parse).load_or_file env fs k = .error ⟨k, .invalidFormat⟩)
  ∧ (∀ os, env k = .error .notPresent →
      env (k ++ "_FILE") = .error (.notUnicode os) →
      (optionImpl inner).load_or_file env fs k = .error ⟨k, .notUnicode os⟩)
  ∧ (∀ path msg, env k = .error .notPresent → env (k ++ "_FILE") = .ok path →
      fs path = .error msg →
      (optionImpl inner).load_or_file env fs k = .error ⟨k, .other msg⟩)
  ∧ (env k = .error .notPresent → env (k ++ "_FILE") = .error .notPresent →
      (optionImpl inner).load_or_file env fs k = .ok none)
  ∧ (∀ e, stringImpl.load env fs (effectiveKey none p "host") = .error e →
      NestedConfigImpl.load env fs p = .error e)
  ∧ TestConfigImpl.load envNestedHostMissing fsEmpty "" =
      .error ⟨"NESTED_HOST", .notPresent⟩ := by
  refine ⟨?_, ?_, ?_, ?_, ?_, ?_, ?_, ?_, by decide⟩
  · intro h1 h2
    exact dlof_absent_absent _ env fs k h1 h2
  · intro os h1 h2
    exact dlof_secondary_notUnicode _ env fs k os h1 h2
  · intro path msg h1 h2 h3
    exact dlof_file_ioerr _ env fs k path msg h1 h2 h3
  · intro path contents h1 h2 h3 h4
    have := dlof_file_ok (scalarFromEnv parse) env fs k path contents h1 h2 h3
    rw [show (scalarImpl parse).load_or_file =
      defaultLoadOrFile (scalarFromEnv parse) from rfl, this]
    simp [scalarFromEnv, h4, EnvError.convert]
  · intro os h1 h2
    exact olof_secondary_notUnicode inner env fs k os h1 h2
  · intro path msg h1 h2 h3
    exact olof_file_ioerr inner env fs k path msg h1 h2 h3
  · intro h1 h2
    exact olof_absent_absent inner env fs k h1 h2
  · intro e h
    show NestedConfig.loadImpl env fs p = .error e
    unfold NestedConfig.loadImpl
    rw [h]

/-- Witness for C1 (amended) at concrete inputs: the scalar path reports the
secondary key on an I/O failure; the optional path reports the primary key on
the same failure. -/
theorem error_key_spec_witness :
    (scalarImpl parse_String).load_or_file envSecondaryFile fsEmpty "K" =
      .error ⟨"K" ++ "_FILE",
        .other "No such file or directory (os error 2)"⟩
  ∧ (optionImpl stringImpl).load_or_file envSecondaryFile fsEmpty "K" =
      .error ⟨"K", .other "No such file or directory (os error 2)"⟩ :=
  ⟨(error_key_spec parse_String stringImpl envSecondaryFile fsEmpty "K" "").2.2.1
      "secret.txt" "No such file or directory (os error 2)"
      (by decide) (by decide) (by decide),
   (error_key_spec parse_String stringImpl envSecondaryFile fsEmpty "K" "").2.2.2.2.2.1
      "secret.txt" "No such file or directory (os error 2)"
      (by decide) (by decide) (by decide)⟩

/-- C9: the generated composite `load` attempts fields in declaration order
and aborts on the first failure: sequencing a prefix of successes, a failing
field, and any tail yields exactly the first failing field's error; an
all-success sequence assembles every value; concretely, with both `ID` and
`GUEST_ID` unparseable, `TestConfig::load` returns the `ID` error even though
`guest_id`'s own load would also fail. -/
theorem composite_first_failure_spec {V : Type}
    (pre post : List (Except EnvError V)) (e : EnvError) (vs : List V) :
    ((∀ r ∈ pre, ∃ v, r = .ok v) →
      loadFields (pre ++ .error e :: post) = .error e)
  ∧ loadFields (vs.map .ok) = .ok vs
  ∧ TestConfigImpl.load envBothBad fsEmpty "" = .error ⟨"ID", .invalidFormat⟩
  ∧ (optionImpl u64Impl).load envBothBad fsEmpty "GUEST_ID" =
      .error ⟨"GUEST_ID", .invalidFormat⟩ := by
  refine ⟨?_, ?_, by decide, by decide⟩
  · intro hpre
    induction pre with
    | nil => rfl
    | cons r rs ih =>
      obtain ⟨v, rfl⟩ := hpre r (List.mem_cons_self r rs)
      have ih2 := ih (fun r hr => hpre r (List.mem_cons_of_mem _ hr))
      simp only [List.cons_append, loadFields, List.append_eq, ih2]
  · induction vs with
    | nil => rfl
    | cons v vs ih => simp only [List.map_cons, loadFields, ih]

/-- Witness for C9 at a concrete field sequence: the first failing field's
error wins over a later failure. -/
theorem composite_first_failure_spec_witness :
    loadFields ([.ok 1] ++ .error ⟨"A", .notPresent⟩ ::
        [.error ⟨"B", .invalidFormat⟩] : List (Except EnvError Nat)) =
      .error ⟨"A", .notPresent⟩ :=
  (composite_first_failure_spec [.ok 1] [.error ⟨"B", .invalidFormat⟩]
      ⟨"A", .notPresent⟩ []).1
    (by
      intro r hr
      rw [List.mem_singleton] at hr
      exact ⟨1, hr⟩)

end EnvUtils
